import Mathlib

/-!
Verification development for a two-voice subtractive synthesizer written in C.

The development shallowly embeds the render callback (`paCallback` in
`src/synth/audio.c`), the GUI-side envelope helpers and note-on/off toggle
handlers (`src/synth/gui.c`), and the preset loader
(`src/synth/presets.c`).  C `double` values are modelled as exact rationals
(`ℚ`); the libm transcendental functions (`sin`, `asin`, the constant `M_PI`)
and the libc numeric scanners (`sscanf` with `%lf` / `%d`) are external
library code, so they enter the embedding as uninterpreted function
parameters (`RealFns`, `ScanFns`).  The mutex lock/unlock operations of the
callback are modelled by Boolean success outcomes, mirroring the C code's
`ret_lock != 0` checks.
-/

/-- ADSR envelope stages, from the `EnvelopeStage` enum in `synth_data.h`. -/
inductive EnvelopeStage where
  | ENV_IDLE
  | ENV_ATTACK
  | ENV_DECAY
  | ENV_SUSTAIN
  | ENV_RELEASE
  deriving DecidableEq

/-- `WAVE_SINE` from the `WaveformType` enum (waveform fields are kept as
machine integers, since the C code stores raw casts of parsed ints). -/
def WAVE_SINE : Int := 0

/-- `WAVE_SQUARE` from the `WaveformType` enum. -/
def WAVE_SQUARE : Int := 1

/-- `WAVE_SAWTOOTH` from the `WaveformType` enum. -/
def WAVE_SAWTOOTH : Int := 2

/-- `WAVE_TRIANGLE` from the `WaveformType` enum. -/
def WAVE_TRIANGLE : Int := 3

/-- The shared synthesizer record from `synth_data.h` (the GTK widget
pointers and the mutex itself are omitted; the mutex is modelled at the
call sites by Boolean outcomes). -/
structure SharedSynthData where
  frequency : ℚ
  amplitude : ℚ
  waveform : Int
  attackTime : ℚ
  decayTime : ℚ
  sustainLevel : ℚ
  releaseTime : ℚ
  phase : ℚ
  note_active : Int
  currentStage : EnvelopeStage
  timeInStage : ℚ
  lastEnvValue : ℚ
  frequency2 : ℚ
  amplitude2 : ℚ
  waveform2 : Int
  attackTime2 : ℚ
  decayTime2 : ℚ
  sustainLevel2 : ℚ
  releaseTime2 : ℚ
  phase2 : ℚ
  note_active2 : Int
  currentStage2 : EnvelopeStage
  timeInStage2 : ℚ
  lastEnvValue2 : ℚ
  sampleRate : ℚ
  deriving DecidableEq

/-- The `PresetData` record from `synth_data.h`. -/
structure PresetData where
  frequency1 : ℚ
  amplitude1 : ℚ
  waveform1 : Int
  attackTime1 : ℚ
  decayTime1 : ℚ
  sustainLevel1 : ℚ
  releaseTime1 : ℚ
  frequency2 : ℚ
  amplitude2 : ℚ
  waveform2 : Int
  attackTime2 : ℚ
  decayTime2 : ℚ
  sustainLevel2 : ℚ
  releaseTime2 : ℚ
  deriving DecidableEq

/-- Uninterpreted libm functions used by the oscillator switch:
`sin`, `asin` and the constant `M_PI`. -/
structure RealFns where
  sin : ℚ → ℚ
  asin : ℚ → ℚ
  pi : ℚ

/-- The literal `1e-9` threshold used in the release branch of the
envelope state machine in `audio.c`. -/
def EPS9 : ℚ := 1 / 1000000000

/-- `DBL_EPSILON` from `<float.h>`, used by the GUI envelope helpers. -/
def DBL_EPSILON : ℚ := 1 / 2 ^ 52

/-- Truncation toward zero, as C's conversion in `fmod`. -/
def truncQ (q : ℚ) : Int := if q ≥ 0 then ⌊q⌋ else ⌈q⌉

/-- C's `fmod(x, y)`: `x - y * trunc(x / y)` (exact over ℚ). -/
def fmodQ (x y : ℚ) : ℚ := x - y * (truncQ (x / y) : ℚ)

/-- C's `fmin` (over ℚ; no NaN handling is needed). -/
def fminQ (a b : ℚ) : ℚ := if a ≤ b then a else b

/-- C's `fmax` (over ℚ; no NaN handling is needed). -/
def fmaxQ (a b : ℚ) : ℚ := if a ≤ b then b else a

/-- Result of one per-sample envelope state-machine evaluation: the raw
multiplier together with the updated stage, time-in-stage and note flag. -/
structure EnvMachineResult where
  em : ℚ
  stage : EnvelopeStage
  timeInStage : ℚ
  note_active : Int
  deriving DecidableEq

/-- The Wave 1 ADSR switch of `paCallback` (`audio.c` lines 208-236),
evaluated at an already-incremented `timeInStage` value `t`. -/
def wave1EnvMachine (amp attackT decayT sustainL releaseT lastEnv : ℚ)
    (stage : EnvelopeStage) (t : ℚ) (na : Int) : EnvMachineResult :=
  match stage with
  | .ENV_IDLE => ⟨0, .ENV_IDLE, t, na⟩
  | .ENV_ATTACK =>
      let first : ℚ × EnvelopeStage × ℚ :=
        if attackT ≤ 0 then (amp, .ENV_DECAY, 0)
        else (amp * fminQ 1 (t / attackT), .ENV_ATTACK, t)
      if first.2.2 ≥ attackT then ⟨amp, .ENV_DECAY, 0, na⟩
      else ⟨first.1, first.2.1, first.2.2, na⟩
  | .ENV_DECAY =>
      let first : ℚ × EnvelopeStage × ℚ :=
        if decayT ≤ 0 ∨ sustainL ≥ 1 then (amp * sustainL, .ENV_SUSTAIN, 0)
        else (amp * (1 - (1 - sustainL) * fminQ 1 (t / decayT)), .ENV_DECAY, t)
      let second : ℚ × EnvelopeStage × ℚ :=
        if first.2.2 ≥ decayT then (amp * sustainL, .ENV_SUSTAIN, 0) else first
      let em := if second.1 < amp * sustainL then amp * sustainL else second.1
      ⟨em, second.2.1, second.2.2, na⟩
  | .ENV_SUSTAIN => ⟨amp * sustainL, .ENV_SUSTAIN, t, na⟩
  | .ENV_RELEASE =>
      let em : ℚ :=
        if releaseT ≤ 0 ∨ lastEnv ≤ EPS9 then 0
        else lastEnv * fmaxQ 0 (1 - t / releaseT)
      if t ≥ releaseT ∨ em ≤ EPS9 then ⟨0, .ENV_IDLE, t, 0⟩
      else ⟨em, .ENV_RELEASE, t, na⟩

/-- The Wave 2 ADSR switch of `paCallback` (`audio.c` lines 262-290),
transcribed from the hand-duplicated Wave 2 block. -/
def wave2EnvMachine (amp attackT decayT sustainL releaseT lastEnv : ℚ)
    (stage : EnvelopeStage) (t : ℚ) (na : Int) : EnvMachineResult :=
  match stage with
  | .ENV_IDLE => ⟨0, .ENV_IDLE, t, na⟩
  | .ENV_ATTACK =>
      let first : ℚ × EnvelopeStage × ℚ :=
        if attackT ≤ 0 then (amp, .ENV_DECAY, 0)
        else (amp * fminQ 1 (t / attackT), .ENV_ATTACK, t)
      if first.2.2 ≥ attackT then ⟨amp, .ENV_DECAY, 0, na⟩
      else ⟨first.1, first.2.1, first.2.2, na⟩
  | .ENV_DECAY =>
      let first : ℚ × EnvelopeStage × ℚ :=
        if decayT ≤ 0 ∨ sustainL ≥ 1 then (amp * sustainL, .ENV_SUSTAIN, 0)
        else (amp * (1 - (1 - sustainL) * fminQ 1 (t / decayT)), .ENV_DECAY, t)
      let second : ℚ × EnvelopeStage × ℚ :=
        if first.2.2 ≥ decayT then (amp * sustainL, .ENV_SUSTAIN, 0) else first
      let em := if second.1 < amp * sustainL then amp * sustainL else second.1
      ⟨em, second.2.1, second.2.2, na⟩
  | .ENV_SUSTAIN => ⟨amp * sustainL, .ENV_SUSTAIN, t, na⟩
  | .ENV_RELEASE =>
      let em : ℚ :=
        if releaseT ≤ 0 ∨ lastEnv ≤ EPS9 then 0
        else lastEnv * fmaxQ 0 (1 - t / releaseT)
      if t ≥ releaseT ∨ em ≤ EPS9 then ⟨0, .ENV_IDLE, t, 0⟩
      else ⟨em, .ENV_RELEASE, t, na⟩

/-- The clamp `env_multiplier = fmax(0.0, fmin(local_amp, env_multiplier))`
applied after the Wave 1 switch (`audio.c` line 237). -/
def wave1ClampEnv (amp em : ℚ) : ℚ := fmaxQ 0 (fminQ amp em)

/-- The clamp applied after the Wave 2 switch (`audio.c` line 291). -/
def wave2ClampEnv (amp em : ℚ) : ℚ := fmaxQ 0 (fminQ amp em)

/-- The render routine's Wave 1 envelope multiplier for a given stage and
time-in-stage, without advancing time: the ADSR switch followed by the
clamp of line 237. -/
def wave1EnvNoAdvance (amp attackT decayT sustainL releaseT lastEnv : ℚ)
    (stage : EnvelopeStage) (t : ℚ) : ℚ :=
  wave1ClampEnv amp (wave1EnvMachine amp attackT decayT sustainL releaseT lastEnv stage t 0).em

/-- The render routine's Wave 2 envelope multiplier without advancing time:
the Wave 2 ADSR switch followed by the clamp of line 291. -/
def wave2EnvNoAdvance (amp attackT decayT sustainL releaseT lastEnv : ℚ)
    (stage : EnvelopeStage) (t : ℚ) : ℚ :=
  wave2ClampEnv amp (wave2EnvMachine amp attackT decayT sustainL releaseT lastEnv stage t 0).em

/-- The Wave 1 waveform switch of `paCallback` (`audio.c` lines 241-247). -/
def wave1Osc (R : RealFns) (w : Int) (phase : ℚ) : ℚ :=
  if w = WAVE_SINE then R.sin phase
  else if w = WAVE_SQUARE then (if R.sin phase ≥ 0 then 1 else -1)
  else if w = WAVE_SAWTOOTH then fmodQ phase (2 * R.pi) / R.pi - 1
  else if w = WAVE_TRIANGLE then (2 / R.pi) * R.asin (R.sin phase)
  else 0

/-- The Wave 2 waveform switch of `paCallback` (`audio.c` lines 295-301). -/
def wave2Osc (R : RealFns) (w : Int) (phase : ℚ) : ℚ :=
  if w = WAVE_SINE then R.sin phase
  else if w = WAVE_SQUARE then (if R.sin phase ≥ 0 then 1 else -1)
  else if w = WAVE_SAWTOOTH then fmodQ phase (2 * R.pi) / R.pi - 1
  else if w = WAVE_TRIANGLE then (2 / R.pi) * R.asin (R.sin phase)
  else 0

/-- The Wave 1 phase advance and wrap (`audio.c` lines 250-251). -/
def wave1PhaseUpdate (R : RealFns) (freq sr phase : ℚ) : ℚ :=
  let p := phase + 2 * R.pi * freq / sr
  let p := fmodQ p (2 * R.pi)
  if p < 0 then p + 2 * R.pi else p

/-- The Wave 2 phase advance and wrap (`audio.c` lines 304-305). -/
def wave2PhaseUpdate (R : RealFns) (freq sr phase : ℚ) : ℚ :=
  let p := phase + 2 * R.pi * freq / sr
  let p := fmodQ p (2 * R.pi)
  if p < 0 then p + 2 * R.pi else p

/-- Result of processing one voice for one sample inside the render loop. -/
structure VoiceStepResult where
  sample : ℚ
  stage : EnvelopeStage
  timeInStage : ℚ
  phase : ℚ
  note_active : Int
  deriving DecidableEq

/-- One full Wave 1 per-sample processing step (`audio.c` lines 204-256):
advance `timeInStage` by `1/sampleRate`, run the ADSR switch, clamp the
multiplier, and either generate and scale a waveform sample and advance
the phase (multiplier above `1e-9`) or emit silence leaving the phase. -/
def wave1SampleStep (R : RealFns) (freq amp : ℚ) (w : Int)
    (attackT decayT sustainL releaseT lastEnv sr : ℚ)
    (stage : EnvelopeStage) (t phase : ℚ) (na : Int) : VoiceStepResult :=
  let t1 := t + 1 / sr
  let m := wave1EnvMachine amp attackT decayT sustainL releaseT lastEnv stage t1 na
  let em := wave1ClampEnv amp m.em
  if em > EPS9 then
    ⟨wave1Osc R w phase * em, m.stage, m.timeInStage, wave1PhaseUpdate R freq sr phase,
      m.note_active⟩
  else
    ⟨0, m.stage, m.timeInStage, phase, m.note_active⟩

/-- One full Wave 2 per-sample processing step (`audio.c` lines 258-310),
transcribed from the hand-duplicated Wave 2 block. -/
def wave2SampleStep (R : RealFns) (freq amp : ℚ) (w : Int)
    (attackT decayT sustainL releaseT lastEnv sr : ℚ)
    (stage : EnvelopeStage) (t phase : ℚ) (na : Int) : VoiceStepResult :=
  let t1 := t + 1 / sr
  let m := wave2EnvMachine amp attackT decayT sustainL releaseT lastEnv stage t1 na
  let em := wave2ClampEnv amp m.em
  if em > EPS9 then
    ⟨wave2Osc R w phase * em, m.stage, m.timeInStage, wave2PhaseUpdate R freq sr phase,
      m.note_active⟩
  else
    ⟨0, m.stage, m.timeInStage, phase, m.note_active⟩

/-- The mix clip (`audio.c` lines 317-318). -/
def clipSample (x : ℚ) : ℚ := if x > 1 then 1 else if x < -1 then -1 else x

/-- The callback-local mutable state threaded through the render loop:
both voices' stage, time-in-stage, phase and note flag. -/
structure LoopState where
  stage1 : EnvelopeStage
  t1 : ℚ
  phase1 : ℚ
  na1 : Int
  stage2 : EnvelopeStage
  t2 : ℚ
  phase2 : ℚ
  na2 : Int
  deriving DecidableEq

/-- One iteration of the render loop body (`audio.c` lines 198-322):
process both voices, mix, clip. -/
def renderFrame (R : RealFns) (d : SharedSynthData) (ls : LoopState) : ℚ × LoopState :=
  let r1 := wave1SampleStep R d.frequency d.amplitude d.waveform d.attackTime d.decayTime
    d.sustainLevel d.releaseTime d.lastEnvValue d.sampleRate ls.stage1 ls.t1 ls.phase1 ls.na1
  let r2 := wave2SampleStep R d.frequency2 d.amplitude2 d.waveform2 d.attackTime2 d.decayTime2
    d.sustainLevel2 d.releaseTime2 d.lastEnvValue2 d.sampleRate ls.stage2 ls.t2 ls.phase2 ls.na2
  (clipSample (r1.sample + r2.sample),
    ⟨r1.stage, r1.timeInStage, r1.phase, r1.note_active,
     r2.stage, r2.timeInStage, r2.phase, r2.note_active⟩)

/-- The render loop over `framesPerBuffer` frames, returning the written
output samples in order together with the final local state. -/
def renderLoop (R : RealFns) (d : SharedSynthData) :
    ℕ → LoopState → List ℚ × LoopState
  | 0, ls => ([], ls)
  | n + 1, ls =>
      let f := renderFrame R d ls
      let rest := renderLoop R d n f.2
      (f.1 :: rest.1, rest.2)

/-- The snapshot taken under the read lock (`audio.c` lines 152-182):
the loop-local copies of both voices' mutable state. -/
def snapshotLoopState (d : SharedSynthData) : LoopState :=
  ⟨d.currentStage, d.timeInStage, d.phase, d.note_active,
   d.currentStage2, d.timeInStage2, d.phase2, d.note_active2⟩

/-- The commit under the write lock (`audio.c` lines 334-345): write back
only `phase`, `timeInStage`, `currentStage`, `note_active` of each voice. -/
def commitLoopState (d : SharedSynthData) (ls : LoopState) : SharedSynthData :=
  { d with
    phase := ls.phase1, timeInStage := ls.t1, currentStage := ls.stage1,
    note_active := ls.na1,
    phase2 := ls.phase2, timeInStage2 := ls.t2, currentStage2 := ls.stage2,
    note_active2 := ls.na2 }

/-- The callback's return value: `paContinue` or `paAbort`. -/
inductive CallbackResult where
  | paContinue
  | paAbort
  deriving DecidableEq

/-- The PortAudio render callback `paCallback` (`audio.c` lines 96-358).
The four Booleans are the success outcomes of the four pthread mutex
operations, in program order: read lock, read unlock, write lock, write
unlock (`true` models a zero return from the pthread call).  Returns the
samples written to the output buffer, the callback result, and the shared
state as left by the call. -/
def paCallback (R : RealFns) (lockRead unlockRead lockWrite unlockWrite : Bool)
    (d : SharedSynthData) (framesPerBuffer : ℕ) :
    List ℚ × CallbackResult × SharedSynthData :=
  if lockRead = false then (List.replicate framesPerBuffer 0, .paAbort, d)
  else if unlockRead = false then (List.replicate framesPerBuffer 0, .paAbort, d)
  else
    let res := renderLoop R d framesPerBuffer (snapshotLoopState d)
    if lockWrite = false then (res.1, .paAbort, d)
    else
      let d1 := commitLoopState d res.2
      if unlockWrite = false then (res.1, .paAbort, d1)
      else (res.1, .paContinue, d1)

/-- `calculate_current_envelope` from `gui.c` lines 299-304: the envelope
multiplier the GUI evaluates for Wave 1 at the current stage and
time-in-stage when a note-off is triggered. -/
def calculate_current_envelope (d : SharedSynthData) : ℚ :=
  let currentStage := d.currentStage
  let timeInStage := d.timeInStage
  let attackTime := d.attackTime
  let decayTime := d.decayTime
  let sustainLevel := d.sustainLevel
  let amplitude := d.amplitude
  if amplitude < DBL_EPSILON then 0
  else
    let env_multiplier : ℚ :=
      match currentStage with
      | .ENV_ATTACK =>
          if attackTime ≤ 0 then amplitude
          else amplitude * fminQ 1 (timeInStage / fmaxQ DBL_EPSILON attackTime)
      | .ENV_DECAY =>
          let em :=
            if decayTime ≤ 0 ∨ sustainLevel ≥ 1 then amplitude * sustainLevel
            else amplitude *
              (1 - (1 - sustainLevel) * fminQ 1 (timeInStage / fmaxQ DBL_EPSILON decayTime))
          if em < amplitude * sustainLevel then amplitude * sustainLevel else em
      | .ENV_SUSTAIN => amplitude * sustainLevel
      | .ENV_RELEASE => 0
      | .ENV_IDLE => 0
    fmaxQ 0 (fminQ amplitude env_multiplier)

/-- `calculate_current_envelope_wave2` from `gui.c` lines 308-313,
transcribed from the hand-duplicated Wave 2 helper (reads the `...2`
fields). -/
def calculate_current_envelope_wave2 (d : SharedSynthData) : ℚ :=
  let currentStage := d.currentStage2
  let timeInStage := d.timeInStage2
  let attackTime := d.attackTime2
  let decayTime := d.decayTime2
  let sustainLevel := d.sustainLevel2
  let amplitude := d.amplitude2
  if amplitude < DBL_EPSILON then 0
  else
    let env_multiplier : ℚ :=
      match currentStage with
      | .ENV_ATTACK =>
          if attackTime ≤ 0 then amplitude
          else amplitude * fminQ 1 (timeInStage / fmaxQ DBL_EPSILON attackTime)
      | .ENV_DECAY =>
          let em :=
            if decayTime ≤ 0 ∨ sustainLevel ≥ 1 then amplitude * sustainLevel
            else amplitude *
              (1 - (1 - sustainLevel) * fminQ 1 (timeInStage / fmaxQ DBL_EPSILON decayTime))
          if em < amplitude * sustainLevel then amplitude * sustainLevel else em
      | .ENV_SUSTAIN => amplitude * sustainLevel
      | .ENV_RELEASE => 0
      | .ENV_IDLE => 0
    fmaxQ 0 (fminQ amplitude env_multiplier)

/-- The state mutation of `on_note_on_button_toggled` (`gui.c` lines
374-376): note-on when the toggle became active and the stage is Idle,
note-off when it became inactive and the stage is neither Idle nor
Release, otherwise no change. -/
def on_note_on_button_toggled (is_active : Bool) (d : SharedSynthData) : SharedSynthData :=
  if is_active = true ∧ d.currentStage = .ENV_IDLE then
    { d with
      note_active := 1, currentStage := .ENV_ATTACK, timeInStage := 0,
      phase := 0, lastEnvValue := 0 }
  else if is_active = false ∧ d.currentStage ≠ .ENV_IDLE ∧ d.currentStage ≠ .ENV_RELEASE then
    { d with
      lastEnvValue := calculate_current_envelope d,
      currentStage := .ENV_RELEASE, timeInStage := 0 }
  else d

/-- The state mutation of `on_note_on_button_toggled_wave2` (`gui.c` lines
389-391), transcribed from the hand-duplicated Wave 2 handler. -/
def on_note_on_button_toggled_wave2 (is_active : Bool) (d : SharedSynthData) : SharedSynthData :=
  if is_active = true ∧ d.currentStage2 = .ENV_IDLE then
    { d with
      note_active2 := 1, currentStage2 := .ENV_ATTACK, timeInStage2 := 0,
      phase2 := 0, lastEnvValue2 := 0 }
  else if is_active = false ∧ d.currentStage2 ≠ .ENV_IDLE ∧ d.currentStage2 ≠ .ENV_RELEASE then
    { d with
      lastEnvValue2 := calculate_current_envelope_wave2 d,
      currentStage2 := .ENV_RELEASE, timeInStage2 := 0 }
  else d

/-- C's `isspace` for the characters relevant to preset files. -/
def isSpaceChar (c : Char) : Bool :=
  c == ' ' || c == '\t' || c == '\n' || c == '\x0d' || c == '\x0b' || c == '\x0c'

/-- `trim_whitespace` from `presets.c` lines 41-58: remove leading and
trailing whitespace. -/
def trim_whitespace (s : List Char) : List Char :=
  ((s.dropWhile isSpaceChar).reverse.dropWhile isSpaceChar).reverse

/-- `strchr(line, ':')` followed by splitting at the colon (`presets.c`
lines 207-218): the key (before the first colon) and the value (after it),
or `none` when the line has no colon. -/
def splitAtColon (s : List Char) : Option (List Char × List Char) :=
  match s.findIdx? (· == ':') with
  | none => none
  | some i => some (s.take i, s.drop (i + 1))

/-- Uninterpreted libc numeric scanners: `sscanf(value, "%lf", ...)` and
`sscanf(value, "%d", ...)`, returning `none` when the conversion count is
not 1. -/
structure ScanFns where
  scanDouble : List Char → Option ℚ
  scanInt : List Char → Option Int

/-- Processing of one line of a preset file by the parsing loop of
`handle_load_preset_from_file` (`presets.c` lines 194-261): trim, skip
blank and comment lines, split at the colon (no colon: warn and continue),
trim key and value (either empty: warn and continue), then dispatch on the
key.  Returns the updated local preset record and found-fields mask, or
`none` when the loop sets `parse_success = 0` and breaks — which happens
when a recognized key's value fails to scan or the key is unknown, except
that a `frequency1` line whose value fails to scan is skipped because the
final `!parsed_ok` check exempts exactly that key. -/
def processLine (P : ScanFns) (p : PresetData) (m : ℕ) (raw : List Char) :
    Option (PresetData × ℕ) :=
  let line := trim_whitespace raw
  if line = [] then some (p, m)
  else if line.head? = some '#' then some (p, m)
  else
    match splitAtColon line with
    | none => some (p, m)
    | some kv =>
      let key := trim_whitespace kv.1
      let value := trim_whitespace kv.2
      if key = [] ∨ value = [] then some (p, m)
      else if key = "frequency1".toList then
        match P.scanDouble value with
        | some v => some ({ p with frequency1 := v }, m ||| (1 <<< 0))
        | none => some (p, m)
      else if key = "amplitude1".toList then
        match P.scanDouble value with
        | some v => some ({ p with amplitude1 := v }, m ||| (1 <<< 1))
        | none => none
      else if key = "waveform1".toList then
        match P.scanInt value with
        | some v => some ({ p with waveform1 := v }, m ||| (1 <<< 2))
        | none => none
      else if key = "attackTime1".toList then
        match P.scanDouble value with
        | some v => some ({ p with attackTime1 := v }, m ||| (1 <<< 3))
        | none => none
      else if key = "decayTime1".toList then
        match P.scanDouble value with
        | some v => some ({ p with decayTime1 := v }, m ||| (1 <<< 4))
        | none => none
      else if key = "sustainLevel1".toList then
        match P.scanDouble value with
        | some v => some ({ p with sustainLevel1 := v }, m ||| (1 <<< 5))
        | none => none
      else if key = "releaseTime1".toList then
        match P.scanDouble value with
        | some v => some ({ p with releaseTime1 := v }, m ||| (1 <<< 6))
        | none => none
      else if key = "frequency2".toList then
        match P.scanDouble value with
        | some v => some ({ p with frequency2 := v }, m ||| (1 <<< 7))
        | none => none
      else if key = "amplitude2".toList then
        match P.scanDouble value with
        | some v => some ({ p with amplitude2 := v }, m ||| (1 <<< 8))
        | none => none
      else if key = "waveform2".toList then
        match P.scanInt value with
        | some v => some ({ p with waveform2 := v }, m ||| (1 <<< 9))
        | none => none
      else if key = "attackTime2".toList then
        match P.scanDouble value with
        | some v => some ({ p with attackTime2 := v }, m ||| (1 <<< 10))
        | none => none
      else if key = "decayTime2".toList then
        match P.scanDouble value with
        | some v => some ({ p with decayTime2 := v }, m ||| (1 <<< 11))
        | none => none
      else if key = "sustainLevel2".toList then
        match P.scanDouble value with
        | some v => some ({ p with sustainLevel2 := v }, m ||| (1 <<< 12))
        | none => none
      else if key = "releaseTime2".toList then
        match P.scanDouble value with
        | some v => some ({ p with releaseTime2 := v }, m ||| (1 <<< 13))
        | none => none
      else none

/-- The whole-file parsing loop of `handle_load_preset_from_file`:
process the lines in order, stopping at the first line on which the loop
breaks with `parse_success = 0`. -/
def parseLines (P : ScanFns) : List String → PresetData → ℕ → Option (PresetData × ℕ)
  | [], p, m => some (p, m)
  | l :: ls, p, m =>
      match processLine P p m l.toList with
      | none => none
      | some pm => parseLines P ls pm.1 pm.2

/-- `(1 << 14) - 1`, the `ALL_FIELDS_MASK` of `presets.c` line 176. -/
def ALL_FIELDS_MASK : ℕ := (1 <<< 14) - 1

/-- The state update of a successful preset load (`presets.c` lines
281-294): write the fourteen parsed parameter fields into the shared
record, leaving every other field alone. -/
def applyPreset (p : PresetData) (g : SharedSynthData) : SharedSynthData :=
  { g with
    frequency := p.frequency1, amplitude := p.amplitude1, waveform := p.waveform1,
    attackTime := p.attackTime1, decayTime := p.decayTime1,
    sustainLevel := p.sustainLevel1, releaseTime := p.releaseTime1,
    frequency2 := p.frequency2, amplitude2 := p.amplitude2, waveform2 := p.waveform2,
    attackTime2 := p.attackTime2, decayTime2 := p.decayTime2,
    sustainLevel2 := p.sustainLevel2, releaseTime2 := p.releaseTime2 }

/-- `handle_load_preset_from_file` from `presets.c` lines 169-307.
`file` is `none` when `fopen` fails, otherwise the file's lines; `g0` is
the arbitrary initial (uninitialized stack) contents of the local
`loaded_preset`; `g` is the shared synthesizer state.  Returns the C
function's return value (`true` for 1, `false` for 0) together with the
shared state after the call. -/
def handle_load_preset_from_file (P : ScanFns) (file : Option (List String))
    (g0 : PresetData) (g : SharedSynthData) : Bool × SharedSynthData :=
  match file with
  | none => (false, g)
  | some lines =>
    match parseLines P lines g0 0 with
    | none => (false, g)
    | some pm =>
      if pm.2 = ALL_FIELDS_MASK then (true, applyPreset pm.1 g)
      else (false, g)

/-- The envelope-stage edges the per-sample render step is allowed to take:
each stage may persist, Attack may complete into Decay, Decay into Sustain,
and Release into Idle; Idle and Sustain only persist. -/
def renderEdgeOK (a b : EnvelopeStage) : Bool :=
  match a, b with
  | .ENV_IDLE, .ENV_IDLE => true
  | .ENV_ATTACK, .ENV_ATTACK => true
  | .ENV_ATTACK, .ENV_DECAY => true
  | .ENV_DECAY, .ENV_DECAY => true
  | .ENV_DECAY, .ENV_SUSTAIN => true
  | .ENV_SUSTAIN, .ENV_SUSTAIN => true
  | .ENV_RELEASE, .ENV_RELEASE => true
  | .ENV_RELEASE, .ENV_IDLE => true
  | _, _ => false

/-- Decimal value of a digit string, for the concrete scanner below. -/
def decDigitsVal (cs : List Char) : ℕ :=
  cs.foldl (fun n c => 10 * n + (c.toNat - 48)) 0

/-- A concrete `%lf` scanner accepting nonempty all-digit strings. -/
def scanNatQ (cs : List Char) : Option ℚ :=
  if cs ≠ [] ∧ cs.all Char.isDigit then some ((decDigitsVal cs : ℕ) : ℚ) else none

/-- A concrete `%d` scanner accepting nonempty all-digit strings. -/
def scanNatInt (cs : List Char) : Option Int :=
  if cs ≠ [] ∧ cs.all Char.isDigit then some ((decDigitsVal cs : ℕ) : Int) else none

/-- A concrete `ScanFns` instantiation for evaluating the loader on
concrete files. -/
def simpleScan : ScanFns := ⟨scanNatQ, scanNatInt⟩

/-- A concrete `RealFns` instantiation for evaluating the callback on
concrete states (the oscillator values are irrelevant to the properties
evaluated at it). -/
def zeroRealFns : RealFns := ⟨fun _ => 0, fun _ => 0, 0⟩

/-- A concrete idle shared state with representative parameter values. -/
def sampleData : SharedSynthData where
  frequency := 440
  amplitude := 4 / 5
  waveform := 0
  attackTime := 1 / 10
  decayTime := 1 / 10
  sustainLevel := 1 / 2
  releaseTime := 1 / 5
  phase := 0
  note_active := 0
  currentStage := .ENV_IDLE
  timeInStage := 0
  lastEnvValue := 0
  frequency2 := 220
  amplitude2 := 1 / 2
  waveform2 := 1
  attackTime2 := 1 / 20
  decayTime2 := 1 / 10
  sustainLevel2 := 3 / 5
  releaseTime2 := 1 / 4
  phase2 := 0
  note_active2 := 0
  currentStage2 := .ENV_IDLE
  timeInStage2 := 0
  lastEnvValue2 := 0
  sampleRate := 44100

/-- `sampleData` with Wave 1 mid-attack. -/
def attackStateData : SharedSynthData :=
  { sampleData with currentStage := .ENV_ATTACK, timeInStage := 3 / 100, note_active := 1 }

/-- `sampleData` with Wave 1 in sustain. -/
def sustainStateData : SharedSynthData :=
  { sampleData with currentStage := .ENV_SUSTAIN, timeInStage := 1 / 2, note_active := 1 }

/-- `sampleData` with Wave 1 releasing. -/
def releaseStateData : SharedSynthData :=
  { sampleData with
    currentStage := .ENV_RELEASE, timeInStage := 1 / 100, note_active := 1,
    lastEnvValue := 2 / 5 }

/-- Sustain-stage state whose amplitude lies strictly between 0 and
`DBL_EPSILON`. -/
def tinyAmpData : SharedSynthData :=
  { sampleData with
    currentStage := .ENV_SUSTAIN, amplitude := 1 / 2 ^ 60, sustainLevel := 1 / 2,
    note_active := 1 }

/-- State whose Wave 2 envelope inputs mirror the Wave 1 envelope inputs
of `sustainStateData`. -/
def mirrorData : SharedSynthData :=
  { sampleData with
    currentStage2 := sustainStateData.currentStage,
    timeInStage2 := sustainStateData.timeInStage,
    attackTime2 := sustainStateData.attackTime,
    decayTime2 := sustainStateData.decayTime,
    sustainLevel2 := sustainStateData.sustainLevel,
    amplitude2 := sustainStateData.amplitude }

/-- All-zero initial contents for the loader's local `loaded_preset`. -/
def zeroPreset : PresetData :=
  ⟨0, 0, 0, 0, 0, 0, 0, 0, 0, 0, 0, 0, 0, 0⟩

/-- Lines of a well-formed concrete preset file (integer-valued so that
`simpleScan` accepts every value). -/
def presetLinesOK : List String :=
  ["frequency1: 440", "amplitude1: 1", "waveform1: 0", "attackTime1: 0",
   "decayTime1: 0", "sustainLevel1: 1", "releaseTime1: 0",
   "frequency2: 220", "amplitude2: 1", "waveform2: 1", "attackTime2: 0",
   "decayTime2: 0", "sustainLevel2: 1", "releaseTime2: 0"]

/-- The same file with a malformed `frequency1` line prepended. -/
def presetLinesBadFreq : List String :=
  "frequency1: abc" :: presetLinesOK

set_option maxRecDepth 8000

theorem fminQ_eq_min (a b : ℚ) : fminQ a b = min a b := by
  rw [fminQ, min_def]

theorem fmaxQ_eq_max (a b : ℚ) : fmaxQ a b = max a b := by
  rw [fmaxQ, max_def]

/-- C8: a render invocation writes back to the shared state only `phase`,
`timeInStage`, `envelopeStage` and `noteActive` for each voice; all
fourteen parameter fields, both `lastEnvelopeValue` fields and
`sampleRate` are unchanged by the render routine, on every path of the
callback. -/
theorem c8_render_commits_only_voice_state (R : RealFns) (r1 r2 r3 r4 : Bool)
    (d : SharedSynthData) (n : ℕ) :
    (paCallback R r1 r2 r3 r4 d n).2.2.frequency = d.frequency ∧
    (paCallback R r1 r2 r3 r4 d n).2.2.amplitude = d.amplitude ∧
    (paCallback R r1 r2 r3 r4 d n).2.2.waveform = d.waveform ∧
    (paCallback R r1 r2 r3 r4 d n).2.2.attackTime = d.attackTime ∧
    (paCallback R r1 r2 r3 r4 d n).2.2.decayTime = d.decayTime ∧
    (paCallback R r1 r2 r3 r4 d n).2.2.sustainLevel = d.sustainLevel ∧
    (paCallback R r1 r2 r3 r4 d n).2.2.releaseTime = d.releaseTime ∧
    (paCallback R r1 r2 r3 r4 d n).2.2.lastEnvValue = d.lastEnvValue ∧
    (paCallback R r1 r2 r3 r4 d n).2.2.frequency2 = d.frequency2 ∧
    (paCallback R r1 r2 r3 r4 d n).2.2.amplitude2 = d.amplitude2 ∧
    (paCallback R r1 r2 r3 r4 d n).2.2.waveform2 = d.waveform2 ∧
    (paCallback R r1 r2 r3 r4 d n).2.2.attackTime2 = d.attackTime2 ∧
    (paCallback R r1 r2 r3 r4 d n).2.2.decayTime2 = d.decayTime2 ∧
    (paCallback R r1 r2 r3 r4 d n).2.2.sustainLevel2 = d.sustainLevel2 ∧
    (paCallback R r1 r2 r3 r4 d n).2.2.releaseTime2 = d.releaseTime2 ∧
    (paCallback R r1 r2 r3 r4 d n).2.2.lastEnvValue2 = d.lastEnvValue2 ∧
    (paCallback R r1 r2 r3 r4 d n).2.2.sampleRate = d.sampleRate := by
  cases r1 <;> cases r2 <;> cases r3 <;> cases r4 <;>
    simp [paCallback, commitLoopState]

/-- C6: when a mutex operation fails inside the callback, the callback
fills every not-yet-written frame with `0.0` where possible (all frames
for the two read-side operations, none remain for the two write-side
ones), returns `paAbort`, and the result is a fixed value independent of
the outcomes of any later synchronization operation — the failed
operation is not retried. -/
theorem c6_sync_failure_silence_and_abort (R : RealFns) (r2 r3 r4 : Bool)
    (d : SharedSynthData) (n : ℕ) :
    paCallback R false r2 r3 r4 d n = (List.replicate n 0, .paAbort, d) ∧
    paCallback R true false r3 r4 d n = (List.replicate n 0, .paAbort, d) ∧
    paCallback R true true false r4 d n =
      ((renderLoop R d n (snapshotLoopState d)).1, .paAbort, d) ∧
    paCallback R true true true false d n =
      ((renderLoop R d n (snapshotLoopState d)).1, .paAbort,
        commitLoopState d (renderLoop R d n (snapshotLoopState d)).2) := by
  refine ⟨rfl, rfl, ?_, ?_⟩ <;> simp [paCallback]

/-- C9: the hand-duplicated Wave 2 per-sample processing path computes the
same function as the Wave 1 path, and `calculate_current_envelope_wave2`
agrees with `calculate_current_envelope` on identical inputs. -/
theorem c9_wave2_duplicates_wave1 :
    (∀ (R : RealFns) (freq amp : ℚ) (w : Int)
      (attackT decayT sustainL releaseT lastEnv sr : ℚ)
      (stage : EnvelopeStage) (t phase : ℚ) (na : Int),
      wave2SampleStep R freq amp w attackT decayT sustainL releaseT lastEnv sr stage t phase na =
        wave1SampleStep R freq amp w attackT decayT sustainL releaseT lastEnv sr stage t phase na) ∧
    (∀ d e : SharedSynthData, d.currentStage = e.currentStage2 →
      d.timeInStage = e.timeInStage2 → d.attackTime = e.attackTime2 →
      d.decayTime = e.decayTime2 → d.sustainLevel = e.sustainLevel2 →
      d.amplitude = e.amplitude2 →
      calculate_current_envelope d = calculate_current_envelope_wave2 e) := by
  constructor
  · intro R freq amp w attackT decayT sustainL releaseT lastEnv sr stage t phase na
    rfl
  · intro d e h1 h2 h3 h4 h5 h6
    simp only [calculate_current_envelope, calculate_current_envelope_wave2,
      h1, h2, h3, h4, h5, h6]

/-- Witness for C9 at a concrete pair of states whose Wave 1 and Wave 2
envelope inputs coincide. -/
theorem c9_wave2_duplicates_wave1_witness :
    calculate_current_envelope sustainStateData = calculate_current_envelope_wave2 mirrorData :=
  c9_wave2_duplicates_wave1.2 sustainStateData mirrorData rfl rfl rfl rfl rfl rfl

theorem clipSample_bounds (x : ℚ) : -1 ≤ clipSample x ∧ clipSample x ≤ 1 := by
  unfold clipSample
  split_ifs with h1 h2 <;> constructor <;> linarith

theorem paCallback_out (R : RealFns) (r1 r2 r3 r4 : Bool) (d : SharedSynthData) (n : ℕ) :
    (paCallback R r1 r2 r3 r4 d n).1 = List.replicate n 0 ∨
    (paCallback R r1 r2 r3 r4 d n).1 = (renderLoop R d n (snapshotLoopState d)).1 := by
  cases r1 <;> cases r2 <;> cases r3 <;> cases r4 <;> simp [paCallback]

theorem renderLoop_mem_bounds (R : RealFns) (d : SharedSynthData) :
    ∀ (n : ℕ) (ls : LoopState) (x : ℚ), x ∈ (renderLoop R d n ls).1 → -1 ≤ x ∧ x ≤ 1 := by
  intro n
  induction n with
  | zero => intro ls x h; simp [renderLoop] at h
  | succ n ih =>
      intro ls x h
      simp only [renderLoop] at h
      rcases List.mem_cons.mp h with h | h
      · rw [h]
        exact clipSample_bounds _
      · exact ih _ x h

/-- C5: every sample the callback writes is the clipped mix of the two
voices' envelope-scaled samples, and in particular every written output
sample lies in `[-1, 1]` (on the failure paths the written samples are
zeros, also in range). -/
theorem c5_output_is_clipped_mix :
    (∀ (R : RealFns) (d : SharedSynthData) (ls : LoopState),
      (renderFrame R d ls).1 = clipSample
        ((wave1SampleStep R d.frequency d.amplitude d.waveform d.attackTime d.decayTime
            d.sustainLevel d.releaseTime d.lastEnvValue d.sampleRate
            ls.stage1 ls.t1 ls.phase1 ls.na1).sample +
         (wave2SampleStep R d.frequency2 d.amplitude2 d.waveform2 d.attackTime2 d.decayTime2
            d.sustainLevel2 d.releaseTime2 d.lastEnvValue2 d.sampleRate
            ls.stage2 ls.t2 ls.phase2 ls.na2).sample)) ∧
    (∀ (R : RealFns) (r1 r2 r3 r4 : Bool) (d : SharedSynthData) (n : ℕ) (x : ℚ),
      x ∈ (paCallback R r1 r2 r3 r4 d n).1 → -1 ≤ x ∧ x ≤ 1) := by
  constructor
  · intro R d ls
    rfl
  · intro R r1 r2 r3 r4 d n x hx
    rcases paCallback_out R r1 r2 r3 r4 d n with h | h <;> rw [h] at hx
    · have hx0 := List.eq_of_mem_replicate hx
      rw [hx0]
      constructor <;> norm_num
    · exact renderLoop_mem_bounds R d n _ x hx

/-- Witness for C5 at a concrete state, block size and output sample. -/
theorem c5_output_is_clipped_mix_witness :
    (0 : ℚ) ∈ (paCallback zeroRealFns true true true true sampleData 2).1 ∧
    (-1 ≤ (0 : ℚ) ∧ (0 : ℚ) ≤ 1) :=
  ⟨by with_unfolding_all decide,
   c5_output_is_clipped_mix.2 zeroRealFns true true true true sampleData 2 0
     (by with_unfolding_all decide)⟩

theorem fmaxQ_fminQ_zero (amp : ℚ) : fmaxQ 0 (fminQ amp 0) = 0 := by
  unfold fminQ fmaxQ
  split_ifs <;> linarith

theorem wave1SampleStep_idle (R : RealFns) (freq amp : ℚ) (w : Int)
    (attackT decayT sustainL releaseT lastEnv sr t phase : ℚ) (na : Int) :
    wave1SampleStep R freq amp w attackT decayT sustainL releaseT lastEnv sr
      .ENV_IDLE t phase na = ⟨0, .ENV_IDLE, t + 1 / sr, phase, na⟩ := by
  simp only [wave1SampleStep, wave1EnvMachine, wave1ClampEnv, fmaxQ_fminQ_zero]
  norm_num [EPS9]

theorem wave2SampleStep_idle (R : RealFns) (freq amp : ℚ) (w : Int)
    (attackT decayT sustainL releaseT lastEnv sr t phase : ℚ) (na : Int) :
    wave2SampleStep R freq amp w attackT decayT sustainL releaseT lastEnv sr
      .ENV_IDLE t phase na = ⟨0, .ENV_IDLE, t + 1 / sr, phase, na⟩ := by
  simp only [wave2SampleStep, wave2EnvMachine, wave2ClampEnv, fmaxQ_fminQ_zero]
  norm_num [EPS9]

theorem clipSample_zero : clipSample 0 = 0 := by
  unfold clipSample
  norm_num

theorem renderFrame_idle (R : RealFns) (d : SharedSynthData) (ls : LoopState)
    (h1 : ls.stage1 = .ENV_IDLE) (h2 : ls.stage2 = .ENV_IDLE) :
    (renderFrame R d ls).1 = 0 ∧ (renderFrame R d ls).2.stage1 = .ENV_IDLE ∧
      (renderFrame R d ls).2.stage2 = .ENV_IDLE := by
  simp [renderFrame, h1, h2, wave1SampleStep_idle, wave2SampleStep_idle, clipSample_zero]

theorem renderLoop_idle (R : RealFns) (d : SharedSynthData) :
    ∀ (n : ℕ) (ls : LoopState), ls.stage1 = .ENV_IDLE → ls.stage2 = .ENV_IDLE →
      ∀ x ∈ (renderLoop R d n ls).1, x = 0 := by
  intro n
  induction n with
  | zero => intro ls _ _ x h; simp [renderLoop] at h
  | succ n ih =>
      intro ls h1 h2 x h
      simp only [renderLoop] at h
      obtain ⟨hf, hs1, hs2⟩ := renderFrame_idle R d ls h1 h2
      rcases List.mem_cons.mp h with h | h
      · rw [h, hf]
      · exact ih _ hs1 hs2 x h

/-- C7: when both voices are Idle at the snapshot, every sample written by
the callback for that block is exactly 0. -/
theorem c7_idle_voices_silent (R : RealFns) (r1 r2 r3 r4 : Bool)
    (d : SharedSynthData) (n : ℕ)
    (h1 : d.currentStage = .ENV_IDLE) (h2 : d.currentStage2 = .ENV_IDLE) :
    ∀ x ∈ (paCallback R r1 r2 r3 r4 d n).1, x = 0 := by
  intro x hx
  rcases paCallback_out R r1 r2 r3 r4 d n with h | h <;> rw [h] at hx
  · exact List.eq_of_mem_replicate hx
  · exact renderLoop_idle R d n (snapshotLoopState d) h1 h2 x hx

/-- Witness for C7 at a concrete idle state and block size. -/
theorem c7_idle_voices_silent_witness :
    sampleData.currentStage = .ENV_IDLE ∧ sampleData.currentStage2 = .ENV_IDLE ∧
    (0 : ℚ) ∈ (paCallback zeroRealFns true true true true sampleData 3).1 ∧ (0 : ℚ) = 0 :=
  ⟨rfl, rfl, by with_unfolding_all decide,
   c7_idle_voices_silent zeroRealFns true true true true sampleData 3 rfl rfl 0
     (by with_unfolding_all decide)⟩

theorem wave1EnvMachine_edge (amp attackT decayT sustainL releaseT lastEnv : ℚ)
    (stage : EnvelopeStage) (t : ℚ) (na : Int) :
    renderEdgeOK stage
      (wave1EnvMachine amp attackT decayT sustainL releaseT lastEnv stage t na).stage = true := by
  cases stage <;> simp only [wave1EnvMachine] <;> first | rfl | (split_ifs <;> rfl)

theorem wave2EnvMachine_edge (amp attackT decayT sustainL releaseT lastEnv : ℚ)
    (stage : EnvelopeStage) (t : ℚ) (na : Int) :
    renderEdgeOK stage
      (wave2EnvMachine amp attackT decayT sustainL releaseT lastEnv stage t na).stage = true := by
  cases stage <;> simp only [wave2EnvMachine] <;> first | rfl | (split_ifs <;> rfl)

theorem wave1SampleStep_stage_eq (R : RealFns) (freq amp : ℚ) (w : Int)
    (attackT decayT sustainL releaseT lastEnv sr : ℚ)
    (stage : EnvelopeStage) (t phase : ℚ) (na : Int) :
    (wave1SampleStep R freq amp w attackT decayT sustainL releaseT lastEnv sr
      stage t phase na).stage =
    (wave1EnvMachine amp attackT decayT sustainL releaseT lastEnv stage (t + 1 / sr) na).stage := by
  simp only [wave1SampleStep]
  split_ifs <;> rfl

theorem wave2SampleStep_stage_eq (R : RealFns) (freq amp : ℚ) (w : Int)
    (attackT decayT sustainL releaseT lastEnv sr : ℚ)
    (stage : EnvelopeStage) (t phase : ℚ) (na : Int) :
    (wave2SampleStep R freq amp w attackT decayT sustainL releaseT lastEnv sr
      stage t phase na).stage =
    (wave2EnvMachine amp attackT decayT sustainL releaseT lastEnv stage (t + 1 / sr) na).stage := by
  simp only [wave2SampleStep]
  split_ifs <;> rfl

/-- The state written by a note-off taken from Attack, Decay or Sustain. -/
theorem toggle_false_ads (d : SharedSynthData)
    (h : d.currentStage = .ENV_ATTACK ∨ d.currentStage = .ENV_DECAY ∨
      d.currentStage = .ENV_SUSTAIN) :
    on_note_on_button_toggled false d =
      { d with
        lastEnvValue := calculate_current_envelope d,
        currentStage := .ENV_RELEASE, timeInStage := 0 } := by
  rcases h with h | h | h <;> simp [on_note_on_button_toggled, h]

/-- C2: per-sample render steps only take the allowed envelope-stage
edges; note-on changes no state unless the stage is Idle, in which case it
enters Attack; note-off is the identity on Idle and Release and jumps
Attack, Decay or Sustain to Release — for both voices. -/
theorem c2_stage_transition_graph :
    (∀ (R : RealFns) (freq amp : ℚ) (w : Int)
      (attackT decayT sustainL releaseT lastEnv sr : ℚ)
      (stage : EnvelopeStage) (t phase : ℚ) (na : Int),
      renderEdgeOK stage (wave1SampleStep R freq amp w attackT decayT sustainL releaseT
        lastEnv sr stage t phase na).stage = true ∧
      renderEdgeOK stage (wave2SampleStep R freq amp w attackT decayT sustainL releaseT
        lastEnv sr stage t phase na).stage = true) ∧
    (∀ d : SharedSynthData,
      (d.currentStage ≠ .ENV_IDLE → on_note_on_button_toggled true d = d) ∧
      (d.currentStage = .ENV_IDLE →
        (on_note_on_button_toggled true d).currentStage = .ENV_ATTACK) ∧
      (d.currentStage = .ENV_IDLE ∨ d.currentStage = .ENV_RELEASE →
        on_note_on_button_toggled false d = d) ∧
      (d.currentStage = .ENV_ATTACK ∨ d.currentStage = .ENV_DECAY ∨
          d.currentStage = .ENV_SUSTAIN →
        (on_note_on_button_toggled false d).currentStage = .ENV_RELEASE)) ∧
    (∀ d : SharedSynthData,
      (d.currentStage2 ≠ .ENV_IDLE → on_note_on_button_toggled_wave2 true d = d) ∧
      (d.currentStage2 = .ENV_IDLE →
        (on_note_on_button_toggled_wave2 true d).currentStage2 = .ENV_ATTACK) ∧
      (d.currentStage2 = .ENV_IDLE ∨ d.currentStage2 = .ENV_RELEASE →
        on_note_on_button_toggled_wave2 false d = d) ∧
      (d.currentStage2 = .ENV_ATTACK ∨ d.currentStage2 = .ENV_DECAY ∨
          d.currentStage2 = .ENV_SUSTAIN →
        (on_note_on_button_toggled_wave2 false d).currentStage2 = .ENV_RELEASE)) := by
  refine ⟨?_, ?_, ?_⟩
  · intro R freq amp w attackT decayT sustainL releaseT lastEnv sr stage t phase na
    constructor
    · rw [wave1SampleStep_stage_eq]
      exact wave1EnvMachine_edge amp attackT decayT sustainL releaseT lastEnv stage (t + 1 / sr) na
    · rw [wave2SampleStep_stage_eq]
      exact wave2EnvMachine_edge amp attackT decayT sustainL releaseT lastEnv stage (t + 1 / sr) na
  · intro d
    refine ⟨?_, ?_, ?_, ?_⟩
    · intro h
      simp [on_note_on_button_toggled, h]
    · intro h
      simp [on_note_on_button_toggled, h]
    · intro h
      rcases h with h | h <;> simp [on_note_on_button_toggled, h]
    · intro h
      rw [toggle_false_ads d h]
  · intro d
    refine ⟨?_, ?_, ?_, ?_⟩
    · intro h
      simp [on_note_on_button_toggled_wave2, h]
    · intro h
      simp [on_note_on_button_toggled_wave2, h]
    · intro h
      rcases h with h | h <;> simp [on_note_on_button_toggled_wave2, h]
    · intro h
      rcases h with h | h | h <;> simp [on_note_on_button_toggled_wave2, h]

/-- Witness for C2's control-surface conjuncts at concrete states in each
relevant stage. -/
theorem c2_stage_transition_graph_witness :
    on_note_on_button_toggled true attackStateData = attackStateData ∧
    (on_note_on_button_toggled true sampleData).currentStage = .ENV_ATTACK ∧
    on_note_on_button_toggled false releaseStateData = releaseStateData ∧
    (on_note_on_button_toggled false sustainStateData).currentStage = .ENV_RELEASE :=
  ⟨(c2_stage_transition_graph.2.1 attackStateData).1 (by decide),
   (c2_stage_transition_graph.2.1 sampleData).2.1 (by decide),
   (c2_stage_transition_graph.2.1 releaseStateData).2.2.1 (Or.inr (by decide)),
   (c2_stage_transition_graph.2.1 sustainStateData).2.2.2 (Or.inr (Or.inr (by decide)))⟩

theorem fmaxQ_fminQ_bounds (amp em : ℚ) (h : 0 ≤ amp) :
    0 ≤ fmaxQ 0 (fminQ amp em) ∧ fmaxQ 0 (fminQ amp em) ≤ amp := by
  unfold fminQ fmaxQ
  split_ifs <;> constructor <;> linarith

theorem calc_env_bounds (d : SharedSynthData) (h : 0 ≤ d.amplitude) :
    0 ≤ calculate_current_envelope d ∧ calculate_current_envelope d ≤ d.amplitude := by
  simp only [calculate_current_envelope]
  by_cases h1 : d.amplitude < DBL_EPSILON
  · rw [if_pos h1]
    exact ⟨le_refl 0, h⟩
  · rw [if_neg h1]
    exact fmaxQ_fminQ_bounds _ _ h

theorem calc_env2_bounds (d : SharedSynthData) (h : 0 ≤ d.amplitude2) :
    0 ≤ calculate_current_envelope_wave2 d ∧
      calculate_current_envelope_wave2 d ≤ d.amplitude2 := by
  simp only [calculate_current_envelope_wave2]
  by_cases h1 : d.amplitude2 < DBL_EPSILON
  · rw [if_pos h1]
    exact ⟨le_refl 0, h⟩
  · rw [if_neg h1]
    exact fmaxQ_fminQ_bounds _ _ h

/-- C4: for a nonnegative amplitude, the clamped envelope multiplier the
render routine applies to a waveform sample lies in `[0, amplitude]`, and
so does the value `calculate_current_envelope` computes — in particular
the value a note-off stores into `lastEnvValue`. -/
theorem c4_multiplier_within_amplitude :
    (∀ amp em : ℚ, 0 ≤ amp → 0 ≤ wave1ClampEnv amp em ∧ wave1ClampEnv amp em ≤ amp) ∧
    (∀ amp em : ℚ, 0 ≤ amp → 0 ≤ wave2ClampEnv amp em ∧ wave2ClampEnv amp em ≤ amp) ∧
    (∀ d : SharedSynthData, 0 ≤ d.amplitude →
      0 ≤ calculate_current_envelope d ∧ calculate_current_envelope d ≤ d.amplitude) ∧
    (∀ d : SharedSynthData, 0 ≤ d.amplitude2 →
      0 ≤ calculate_current_envelope_wave2 d ∧
        calculate_current_envelope_wave2 d ≤ d.amplitude2) ∧
    (∀ d : SharedSynthData, 0 ≤ d.amplitude →
      (d.currentStage = .ENV_ATTACK ∨ d.currentStage = .ENV_DECAY ∨
        d.currentStage = .ENV_SUSTAIN) →
      0 ≤ (on_note_on_button_toggled false d).lastEnvValue ∧
        (on_note_on_button_toggled false d).lastEnvValue ≤ d.amplitude) := by
  refine ⟨?_, ?_, calc_env_bounds, calc_env2_bounds, ?_⟩
  · intro amp em h
    unfold wave1ClampEnv
    exact fmaxQ_fminQ_bounds amp em h
  · intro amp em h
    unfold wave2ClampEnv
    exact fmaxQ_fminQ_bounds amp em h
  · intro d h hs
    rw [toggle_false_ads d hs]
    exact calc_env_bounds d h

/-- Witness for C4 at a concrete sustain-stage state. -/
theorem c4_multiplier_within_amplitude_witness :
    (0 ≤ calculate_current_envelope sustainStateData ∧
      calculate_current_envelope sustainStateData ≤ sustainStateData.amplitude) ∧
    (0 ≤ (on_note_on_button_toggled false sustainStateData).lastEnvValue ∧
      (on_note_on_button_toggled false sustainStateData).lastEnvValue ≤
        sustainStateData.amplitude) :=
  ⟨c4_multiplier_within_amplitude.2.2.1 sustainStateData (by with_unfolding_all decide),
   c4_multiplier_within_amplitude.2.2.2.2 sustainStateData (by with_unfolding_all decide)
     (Or.inr (Or.inr (by decide)))⟩

theorem fmaxQ_fminQ_zero_amp (em : ℚ) : fmaxQ 0 (fminQ 0 em) = 0 := by
  unfold fminQ fmaxQ
  split_ifs <;> linarith

theorem DBL_EPSILON_pos : (0 : ℚ) < DBL_EPSILON := by
  norm_num [DBL_EPSILON]

theorem EPS9_pos : (0 : ℚ) < EPS9 := by
  norm_num [EPS9]

theorem fminQ_one_of_ge (x : ℚ) (h : 1 ≤ x) : fminQ 1 x = 1 := by
  unfold fminQ
  rw [if_pos h]

theorem fmaxQ_eq_right (a b : ℚ) (h : a ≤ b) : fmaxQ a b = b := by
  unfold fmaxQ
  rw [if_pos h]

theorem wave1EnvMachine_attack_em (amp attackT decayT sustainL releaseT lastEnv t : ℚ)
    (na : Int) (h : 0 < attackT) :
    (wave1EnvMachine amp attackT decayT sustainL releaseT lastEnv .ENV_ATTACK t na).em =
      amp * fminQ 1 (t / attackT) := by
  have hn : ¬ attackT ≤ 0 := not_le.mpr h
  simp only [wave1EnvMachine, if_neg hn]
  by_cases hta : t ≥ attackT
  · rw [if_pos (show ((amp * fminQ 1 (t / attackT), EnvelopeStage.ENV_ATTACK, t)).2.2 ≥ attackT
      from hta)]
    show amp = amp * fminQ 1 (t / attackT)
    rw [fminQ_one_of_ge _ ((one_le_div h).mpr hta), mul_one]
  · rw [if_neg (show ¬ ((amp * fminQ 1 (t / attackT), EnvelopeStage.ENV_ATTACK, t)).2.2 ≥ attackT
      from hta)]

theorem wave1EnvMachine_attack_em_le0 (amp attackT decayT sustainL releaseT lastEnv t : ℚ)
    (na : Int) (h : attackT ≤ 0) :
    (wave1EnvMachine amp attackT decayT sustainL releaseT lastEnv .ENV_ATTACK t na).em = amp := by
  simp only [wave1EnvMachine, if_pos h]

theorem wave1EnvMachine_sustain_em (amp attackT decayT sustainL releaseT lastEnv t : ℚ)
    (na : Int) :
    (wave1EnvMachine amp attackT decayT sustainL releaseT lastEnv .ENV_SUSTAIN t na).em =
      amp * sustainL := rfl

theorem wave1EnvMachine_decay_em_degenerate (amp attackT decayT sustainL releaseT lastEnv t : ℚ)
    (na : Int) (h : decayT ≤ 0 ∨ sustainL ≥ 1) :
    (wave1EnvMachine amp attackT decayT sustainL releaseT lastEnv .ENV_DECAY t na).em =
      amp * sustainL := by
  simp only [wave1EnvMachine, if_pos h]
  by_cases h0 : ((amp * sustainL, EnvelopeStage.ENV_SUSTAIN, (0 : ℚ))).2.2 ≥ decayT
  · rw [if_pos h0, if_neg (lt_irrefl (amp * sustainL))]
  · rw [if_neg h0, if_neg (lt_irrefl (amp * sustainL))]

theorem wave1EnvMachine_decay_em (amp attackT decayT sustainL releaseT lastEnv t : ℚ)
    (na : Int) (hd : 0 < decayT) (hs : sustainL < 1) :
    (wave1EnvMachine amp attackT decayT sustainL releaseT lastEnv .ENV_DECAY t na).em =
      (if amp * (1 - (1 - sustainL) * fminQ 1 (t / decayT)) < amp * sustainL
        then amp * sustainL
        else amp * (1 - (1 - sustainL) * fminQ 1 (t / decayT))) := by
  have hn : ¬ (decayT ≤ 0 ∨ sustainL ≥ 1) := by
    push_neg
    exact ⟨hd, hs⟩
  simp only [wave1EnvMachine, if_neg hn]
  by_cases htd : t ≥ decayT
  · rw [if_pos (show ((amp * (1 - (1 - sustainL) * fminQ 1 (t / decayT)),
        EnvelopeStage.ENV_DECAY, t)).2.2 ≥ decayT from htd)]
    have hone : fminQ 1 (t / decayT) = 1 := fminQ_one_of_ge _ ((one_le_div hd).mpr htd)
    rw [hone]
    have hsl : amp * (1 - (1 - sustainL) * 1) = amp * sustainL := by ring
    rw [hsl, if_neg (lt_irrefl (amp * sustainL))]
  · rw [if_neg (show ¬ ((amp * (1 - (1 - sustainL) * fminQ 1 (t / decayT)),
        EnvelopeStage.ENV_DECAY, t)).2.2 ≥ decayT from htd)]

theorem fmaxQ_zero_nonpos (x : ℚ) (h : x ≤ 0) : fmaxQ 0 x = 0 := by
  unfold fmaxQ
  split_ifs <;> linarith

theorem calc_env_eq_render_formula (d : SharedSynthData)
    (hs : d.currentStage = .ENV_ATTACK ∨ d.currentStage = .ENV_DECAY ∨
      d.currentStage = .ENV_SUSTAIN)
    (hamp : d.amplitude = 0 ∨ DBL_EPSILON ≤ d.amplitude)
    (hat : d.currentStage = .ENV_ATTACK → d.attackTime ≤ 0 ∨ DBL_EPSILON ≤ d.attackTime)
    (hdt : d.currentStage = .ENV_DECAY → d.decayTime ≤ 0 ∨ DBL_EPSILON ≤ d.decayTime) :
    calculate_current_envelope d =
      wave1EnvNoAdvance d.amplitude d.attackTime d.decayTime d.sustainLevel d.releaseTime
        d.lastEnvValue d.currentStage d.timeInStage := by
  rcases hamp with h0 | heps
  · have hlt : d.amplitude < DBL_EPSILON := by
      rw [h0]
      exact DBL_EPSILON_pos
    simp only [calculate_current_envelope, wave1EnvNoAdvance, wave1ClampEnv]
    rw [if_pos hlt, h0, fmaxQ_fminQ_zero_amp]
  · have hnl : ¬ d.amplitude < DBL_EPSILON := not_lt.mpr heps
    rcases hs with h | h | h
    · rcases hat h with ha0 | haeps
      · simp only [calculate_current_envelope, wave1EnvNoAdvance, wave1ClampEnv, h, if_pos ha0]
        rw [if_neg hnl, wave1EnvMachine_attack_em_le0 _ _ _ _ _ _ _ _ ha0]
      · have hapos : 0 < d.attackTime := lt_of_lt_of_le DBL_EPSILON_pos haeps
        have hmax : fmaxQ DBL_EPSILON d.attackTime = d.attackTime := fmaxQ_eq_right _ _ haeps
        simp only [calculate_current_envelope, wave1EnvNoAdvance, wave1ClampEnv, h,
          if_neg (not_le.mpr hapos), hmax]
        rw [if_neg hnl, wave1EnvMachine_attack_em _ _ _ _ _ _ _ _ hapos]
    · by_cases hcond : d.decayTime ≤ 0 ∨ d.sustainLevel ≥ 1
      · simp only [calculate_current_envelope, wave1EnvNoAdvance, wave1ClampEnv, h, if_pos hcond]
        rw [if_neg hnl, wave1EnvMachine_decay_em_degenerate _ _ _ _ _ _ _ _ hcond,
          if_neg (lt_irrefl (d.amplitude * d.sustainLevel))]
      · push_neg at hcond
        obtain ⟨hdpos, hslt⟩ := hcond
        have hdeps : DBL_EPSILON ≤ d.decayTime := by
          rcases hdt h with h1 | h1
          · exact absurd h1 (not_le.mpr hdpos)
          · exact h1
        have hmax : fmaxQ DBL_EPSILON d.decayTime = d.decayTime := fmaxQ_eq_right _ _ hdeps
        have hn : ¬ (d.decayTime ≤ 0 ∨ d.sustainLevel ≥ 1) := by
          push_neg
          exact ⟨hdpos, hslt⟩
        simp only [calculate_current_envelope, wave1EnvNoAdvance, wave1ClampEnv, h,
          if_neg hn, hmax]
        rw [if_neg hnl, wave1EnvMachine_decay_em _ _ _ _ _ _ _ _ hdpos hslt]
    · simp only [calculate_current_envelope, wave1EnvNoAdvance, wave1ClampEnv,
        wave1EnvMachine, h]
      rw [if_neg hnl]

theorem wave1EnvMachine_release_em (amp attackT decayT sustainL releaseT lastEnv t : ℚ)
    (na : Int) (hrt : 0 < releaseT) (hle : EPS9 < lastEnv)
    (hval : EPS9 < lastEnv * fmaxQ 0 (1 - t / releaseT)) :
    (wave1EnvMachine amp attackT decayT sustainL releaseT lastEnv .ENV_RELEASE t na).em =
      lastEnv * fmaxQ 0 (1 - t / releaseT) := by
  have hn : ¬ (releaseT ≤ 0 ∨ lastEnv ≤ EPS9) := by
    push_neg
    exact ⟨hrt, hle⟩
  have htlt : t < releaseT := by
    by_contra hge
    push_neg at hge
    have h1 : 1 ≤ t / releaseT := (one_le_div hrt).mpr hge
    have hz : fmaxQ 0 (1 - t / releaseT) = 0 := fmaxQ_zero_nonpos _ (by linarith)
    rw [hz, mul_zero] at hval
    exact absurd hval (not_lt.mpr (le_of_lt EPS9_pos))
  simp only [wave1EnvMachine, if_neg hn]
  rw [if_neg (show ¬ (t ≥ releaseT ∨ lastEnv * fmaxQ 0 (1 - t / releaseT) ≤ EPS9) from by
    push_neg
    exact ⟨htlt, hval⟩)]

/-- C1 (amended): for a voice in Attack, Decay or Sustain, note-off stores
`calculate_current_envelope` into `lastEnvValue` and moves to Release with
`timeInStage = 0`; the stored value equals the render routine's multiplier
formula evaluated at the current stage and time (without advancing time)
whenever `amplitude` is zero or at least `DBL_EPSILON` and the active
stage's time constant is nonpositive or at least `DBL_EPSILON`; and a
Release-stage sample whose raw multiplier
`lastEnvValue * max 0 (1 - timeInStage / releaseTime)` exceeds `1e-9`
(with `releaseTime > 0` and `lastEnvValue > 1e-9`) computes exactly that
multiplier, so the Release ramp starts from the stored value rather than
from `amplitude`. -/
theorem c1_noteoff_stores_render_formula :
    (∀ d : SharedSynthData,
      (d.currentStage = .ENV_ATTACK ∨ d.currentStage = .ENV_DECAY ∨
        d.currentStage = .ENV_SUSTAIN) →
      on_note_on_button_toggled false d =
        { d with
          lastEnvValue := calculate_current_envelope d,
          currentStage := .ENV_RELEASE, timeInStage := 0 }) ∧
    (∀ d : SharedSynthData,
      (d.currentStage = .ENV_ATTACK ∨ d.currentStage = .ENV_DECAY ∨
        d.currentStage = .ENV_SUSTAIN) →
      (d.amplitude = 0 ∨ DBL_EPSILON ≤ d.amplitude) →
      (d.currentStage = .ENV_ATTACK → d.attackTime ≤ 0 ∨ DBL_EPSILON ≤ d.attackTime) →
      (d.currentStage = .ENV_DECAY → d.decayTime ≤ 0 ∨ DBL_EPSILON ≤ d.decayTime) →
      calculate_current_envelope d =
        wave1EnvNoAdvance d.amplitude d.attackTime d.decayTime d.sustainLevel d.releaseTime
          d.lastEnvValue d.currentStage d.timeInStage) ∧
    (∀ (amp attackT decayT sustainL releaseT lastEnv t : ℚ) (na : Int),
      0 < releaseT → EPS9 < lastEnv →
      EPS9 < lastEnv * fmaxQ 0 (1 - t / releaseT) →
      (wave1EnvMachine amp attackT decayT sustainL releaseT lastEnv .ENV_RELEASE t na).em =
        lastEnv * fmaxQ 0 (1 - t / releaseT)) :=
  ⟨toggle_false_ads, calc_env_eq_render_formula, wave1EnvMachine_release_em⟩

/-- Witness for C1 at a concrete sustain-stage state and a concrete
mid-release sample. -/
theorem c1_noteoff_stores_render_formula_witness :
    on_note_on_button_toggled false sustainStateData =
      { sustainStateData with
        lastEnvValue := calculate_current_envelope sustainStateData,
        currentStage := .ENV_RELEASE, timeInStage := 0 } ∧
    calculate_current_envelope sustainStateData =
      wave1EnvNoAdvance sustainStateData.amplitude sustainStateData.attackTime
        sustainStateData.decayTime sustainStateData.sustainLevel sustainStateData.releaseTime
        sustainStateData.lastEnvValue sustainStateData.currentStage
        sustainStateData.timeInStage ∧
    (wave1EnvMachine (4 / 5) (1 / 10) (1 / 10) (1 / 2) (1 / 5) (2 / 5)
        .ENV_RELEASE (1 / 10) 1).em = (2 / 5) * fmaxQ 0 (1 - (1 / 10) / (1 / 5)) :=
  ⟨c1_noteoff_stores_render_formula.1 sustainStateData (Or.inr (Or.inr (by decide))),
   c1_noteoff_stores_render_formula.2.1 sustainStateData (Or.inr (Or.inr (by decide)))
     (Or.inr (by with_unfolding_all decide))
     (fun hc => absurd hc (by decide)) (fun hc => absurd hc (by decide)),
   c1_noteoff_stores_render_formula.2.2 (4 / 5) (1 / 10) (1 / 10) (1 / 2) (1 / 5) (2 / 5)
     (1 / 10) 1 (by with_unfolding_all decide) (by with_unfolding_all decide)
     (by with_unfolding_all decide)⟩

/-- Counterexample to C1 as stated: with amplitude strictly between 0 and
`DBL_EPSILON` (here `2 ^ (-60)`, in Sustain), the value note-off stores is
0 while the render formula evaluates to `amplitude * sustainLevel > 0`;
and near the end of a release (raw multiplier `5e-10 ≤ 1e-9`) the render
routine flushes the multiplier to 0 instead of computing
`lastEnvValue * max 0 (1 - timeInStage / releaseTime)`. -/
theorem c1_noteoff_stores_render_formula_counterexample :
    ((on_note_on_button_toggled false tinyAmpData).lastEnvValue ≠
      wave1EnvNoAdvance tinyAmpData.amplitude tinyAmpData.attackTime tinyAmpData.decayTime
        tinyAmpData.sustainLevel tinyAmpData.releaseTime tinyAmpData.lastEnvValue
        tinyAmpData.currentStage tinyAmpData.timeInStage) ∧
    ((wave1EnvMachine 1 0 0 0 1 1 .ENV_RELEASE (1 - 1 / 2000000000) 1).em ≠
      1 * fmaxQ 0 (1 - (1 - 1 / 2000000000) / 1)) :=
  ⟨by with_unfolding_all decide, by with_unfolding_all decide⟩

theorem handle_load_success (P : ScanFns) (lines : List String) (g0 : PresetData)
    (g : SharedSynthData) (p : PresetData)
    (hp : parseLines P lines g0 0 = some (p, ALL_FIELDS_MASK)) :
    handle_load_preset_from_file P (some lines) g0 g = (true, applyPreset p g) := by
  simp [handle_load_preset_from_file, hp]

theorem handle_load_success_inv (P : ScanFns) (file : Option (List String))
    (g0 : PresetData) (g : SharedSynthData)
    (h : (handle_load_preset_from_file P file g0 g).1 = true) :
    ∃ lines p, file = some lines ∧ parseLines P lines g0 0 = some (p, ALL_FIELDS_MASK) ∧
      (handle_load_preset_from_file P file g0 g).2 = applyPreset p g := by
  match file with
  | none => simp [handle_load_preset_from_file] at h
  | some lines =>
    rcases hp : parseLines P lines g0 0 with _ | pm
    · rw [handle_load_preset_from_file] at h
      simp only [hp] at h
      exact absurd h (by decide)
    · by_cases hm : pm.2 = ALL_FIELDS_MASK
      · refine ⟨lines, pm.1, rfl, ?_, ?_⟩
        · rw [← hm]
          exact hp
        · simp only [handle_load_preset_from_file, hp, if_pos hm]
      · rw [handle_load_preset_from_file] at h
        simp only [hp, if_neg hm] at h
        exact absurd h (by decide)

theorem applyPreset_fields (p : PresetData) (g : SharedSynthData) :
    (applyPreset p g).frequency = p.frequency1 ∧
    (applyPreset p g).amplitude = p.amplitude1 ∧
    (applyPreset p g).waveform = p.waveform1 ∧
    (applyPreset p g).attackTime = p.attackTime1 ∧
    (applyPreset p g).decayTime = p.decayTime1 ∧
    (applyPreset p g).sustainLevel = p.sustainLevel1 ∧
    (applyPreset p g).releaseTime = p.releaseTime1 ∧
    (applyPreset p g).frequency2 = p.frequency2 ∧
    (applyPreset p g).amplitude2 = p.amplitude2 ∧
    (applyPreset p g).waveform2 = p.waveform2 ∧
    (applyPreset p g).attackTime2 = p.attackTime2 ∧
    (applyPreset p g).decayTime2 = p.decayTime2 ∧
    (applyPreset p g).sustainLevel2 = p.sustainLevel2 ∧
    (applyPreset p g).releaseTime2 = p.releaseTime2 ∧
    (applyPreset p g).currentStage = g.currentStage ∧
    (applyPreset p g).timeInStage = g.timeInStage ∧
    (applyPreset p g).phase = g.phase ∧
    (applyPreset p g).note_active = g.note_active ∧
    (applyPreset p g).lastEnvValue = g.lastEnvValue ∧
    (applyPreset p g).currentStage2 = g.currentStage2 ∧
    (applyPreset p g).timeInStage2 = g.timeInStage2 ∧
    (applyPreset p g).phase2 = g.phase2 ∧
    (applyPreset p g).note_active2 = g.note_active2 ∧
    (applyPreset p g).lastEnvValue2 = g.lastEnvValue2 ∧
    (applyPreset p g).sampleRate = g.sampleRate :=
  ⟨rfl, rfl, rfl, rfl, rfl, rfl, rfl, rfl, rfl, rfl, rfl, rfl, rfl, rfl,
   rfl, rfl, rfl, rfl, rfl, rfl, rfl, rfl, rfl, rfl, rfl⟩

/-- C3 (amended): whenever the preset load returns success it has parsed
all fourteen fields and the resulting state is exactly `applyPreset` of
the parsed record — the fourteen parameter fields are populated from the
file and the envelope and phase state of both voices (and `sampleRate`)
is left unchanged, not reset to Idle (the reset happens only in
`initialize_audio`). -/
theorem c3_load_populates_params_only :
    (∀ (P : ScanFns) (file : Option (List String)) (g0 : PresetData) (g : SharedSynthData),
      (handle_load_preset_from_file P file g0 g).1 = true →
      ∃ lines p, file = some lines ∧
        parseLines P lines g0 0 = some (p, ALL_FIELDS_MASK) ∧
        (handle_load_preset_from_file P file g0 g).2 = applyPreset p g) ∧
    (∀ (p : PresetData) (g : SharedSynthData),
      (applyPreset p g).frequency = p.frequency1 ∧
      (applyPreset p g).amplitude = p.amplitude1 ∧
      (applyPreset p g).waveform = p.waveform1 ∧
      (applyPreset p g).attackTime = p.attackTime1 ∧
      (applyPreset p g).decayTime = p.decayTime1 ∧
      (applyPreset p g).sustainLevel = p.sustainLevel1 ∧
      (applyPreset p g).releaseTime = p.releaseTime1 ∧
      (applyPreset p g).frequency2 = p.frequency2 ∧
      (applyPreset p g).amplitude2 = p.amplitude2 ∧
      (applyPreset p g).waveform2 = p.waveform2 ∧
      (applyPreset p g).attackTime2 = p.attackTime2 ∧
      (applyPreset p g).decayTime2 = p.decayTime2 ∧
      (applyPreset p g).sustainLevel2 = p.sustainLevel2 ∧
      (applyPreset p g).releaseTime2 = p.releaseTime2 ∧
      (applyPreset p g).currentStage = g.currentStage ∧
      (applyPreset p g).timeInStage = g.timeInStage ∧
      (applyPreset p g).phase = g.phase ∧
      (applyPreset p g).note_active = g.note_active ∧
      (applyPreset p g).lastEnvValue = g.lastEnvValue ∧
      (applyPreset p g).currentStage2 = g.currentStage2 ∧
      (applyPreset p g).timeInStage2 = g.timeInStage2 ∧
      (applyPreset p g).phase2 = g.phase2 ∧
      (applyPreset p g).note_active2 = g.note_active2 ∧
      (applyPreset p g).lastEnvValue2 = g.lastEnvValue2 ∧
      (applyPreset p g).sampleRate = g.sampleRate) :=
  ⟨handle_load_success_inv, applyPreset_fields⟩

/-- Witness for C3 at a concrete successful load applied to a mid-attack
state. -/
theorem c3_load_populates_params_only_witness :
    ∃ lines p, (some presetLinesOK : Option (List String)) = some lines ∧
      parseLines simpleScan lines zeroPreset 0 = some (p, ALL_FIELDS_MASK) ∧
      (handle_load_preset_from_file simpleScan (some presetLinesOK) zeroPreset
        attackStateData).2 = applyPreset p attackStateData :=
  c3_load_populates_params_only.1 simpleScan (some presetLinesOK) zeroPreset attackStateData
    (by with_unfolding_all decide)

/-- Counterexample to C3 as stated: a successful load applied to a voice
mid-attack leaves `currentStage = ENV_ATTACK` and `timeInStage` nonzero —
the envelope state is not reset to Idle by the load. -/
theorem c3_load_populates_params_only_counterexample :
    (handle_load_preset_from_file simpleScan (some presetLinesOK) zeroPreset
      attackStateData).1 = true ∧
    (handle_load_preset_from_file simpleScan (some presetLinesOK) zeroPreset
      attackStateData).2.currentStage ≠ .ENV_IDLE ∧
    (handle_load_preset_from_file simpleScan (some presetLinesOK) zeroPreset
      attackStateData).2.timeInStage ≠ 0 :=
  ⟨by with_unfolding_all decide, by with_unfolding_all decide, by with_unfolding_all decide⟩

theorem handle_load_none (P : ScanFns) (g0 : PresetData) (g : SharedSynthData) :
    handle_load_preset_from_file P none g0 g = (false, g) := rfl

theorem handle_load_parse_fail (P : ScanFns) (lines : List String) (g0 : PresetData)
    (g : SharedSynthData) (h : parseLines P lines g0 0 = none) :
    handle_load_preset_from_file P (some lines) g0 g = (false, g) := by
  simp only [handle_load_preset_from_file, h]

theorem handle_load_missing_fields (P : ScanFns) (lines : List String) (g0 : PresetData)
    (g : SharedSynthData) (p : PresetData) (m : ℕ)
    (hp : parseLines P lines g0 0 = some (p, m)) (hm : m ≠ ALL_FIELDS_MASK) :
    handle_load_preset_from_file P (some lines) g0 g = (false, g) := by
  simp only [handle_load_preset_from_file, hp]
  rw [if_neg (show ¬ ((p, m)).2 = ALL_FIELDS_MASK from hm)]

theorem handle_load_failure_unchanged (P : ScanFns) (file : Option (List String))
    (g0 : PresetData) (g : SharedSynthData)
    (h : (handle_load_preset_from_file P file g0 g).1 = false) :
    (handle_load_preset_from_file P file g0 g).2 = g := by
  match file with
  | none => rfl
  | some lines =>
    rcases hp : parseLines P lines g0 0 with _ | pm
    · rw [handle_load_parse_fail P lines g0 g hp]
    · by_cases hm : pm.2 = ALL_FIELDS_MASK
      · rw [handle_load_preset_from_file] at h
        simp only [hp, if_pos hm] at h
        exact absurd h (by decide)
      · rw [handle_load_missing_fields P lines g0 g pm.1 pm.2 hp hm]

theorem processLine_known_key_scan_fail (P : ScanFns) (p : PresetData) (m : ℕ)
    (raw : List Char) (kv : List Char × List Char)
    (h1 : trim_whitespace raw ≠ [])
    (h2 : (trim_whitespace raw).head? ≠ some '#')
    (hkv : splitAtColon (trim_whitespace raw) = some kv)
    (hkey : trim_whitespace kv.1 = "amplitude1".toList)
    (hv : trim_whitespace kv.2 ≠ [])
    (hscan : P.scanDouble (trim_whitespace kv.2) = none) :
    processLine P p m raw = none := by
  simp only [processLine, hkv, hkey]
  rw [if_neg h1, if_neg h2,
    if_neg (show ¬ ("amplitude1".toList = [] ∨ trim_whitespace kv.2 = []) from by
      push_neg
      exact ⟨by decide, hv⟩),
    if_neg (show ¬ "amplitude1".toList = "frequency1".toList from by decide),
    if_pos trivial]
  simp only [hscan]

/-- C10 (amended): the preset load returns 0 and leaves every field of the
shared state unchanged when the file cannot be opened, when the parsing
loop breaks — which happens when a recognized key other than `frequency1`
has a value that fails to scan (shown here for `amplitude1`,
representative of every such key), though not for a malformed
`frequency1` line, which the loop's final check exempts — and when any of
the fourteen required fields is missing after the whole file is read; in
general, whenever the load returns 0 the shared state is unchanged. -/
theorem c10_load_failure_atomic :
    (∀ (P : ScanFns) (g0 : PresetData) (g : SharedSynthData),
      handle_load_preset_from_file P none g0 g = (false, g)) ∧
    (∀ (P : ScanFns) (lines : List String) (g0 : PresetData) (g : SharedSynthData),
      parseLines P lines g0 0 = none →
      handle_load_preset_from_file P (some lines) g0 g = (false, g)) ∧
    (∀ (P : ScanFns) (lines : List String) (g0 : PresetData) (g : SharedSynthData)
      (p : PresetData) (m : ℕ),
      parseLines P lines g0 0 = some (p, m) → m ≠ ALL_FIELDS_MASK →
      handle_load_preset_from_file P (some lines) g0 g = (false, g)) ∧
    (∀ (P : ScanFns) (file : Option (List String)) (g0 : PresetData) (g : SharedSynthData),
      (handle_load_preset_from_file P file g0 g).1 = false →
      (handle_load_preset_from_file P file g0 g).2 = g) ∧
    (∀ (P : ScanFns) (p : PresetData) (m : ℕ) (raw : List Char)
      (kv : List Char × List Char),
      trim_whitespace raw ≠ [] →
      (trim_whitespace raw).head? ≠ some '#' →
      splitAtColon (trim_whitespace raw) = some kv →
      trim_whitespace kv.1 = "amplitude1".toList →
      trim_whitespace kv.2 ≠ [] →
      P.scanDouble (trim_whitespace kv.2) = none →
      processLine P p m raw = none) :=
  ⟨handle_load_none, handle_load_parse_fail, handle_load_missing_fields,
   handle_load_failure_unchanged, processLine_known_key_scan_fail⟩

/-- Witness for C10 at a concrete file whose `amplitude1` value fails to
scan. -/
theorem c10_load_failure_atomic_witness :
    handle_load_preset_from_file simpleScan (some ["amplitude1: abc"]) zeroPreset sampleData =
      (false, sampleData) ∧
    processLine simpleScan zeroPreset 0 "amplitude1: abc".toList = none :=
  ⟨c10_load_failure_atomic.2.1 simpleScan ["amplitude1: abc"] zeroPreset sampleData
     (by with_unfolding_all decide),
   c10_load_failure_atomic.2.2.2.2 simpleScan zeroPreset 0 "amplitude1: abc".toList
     ("amplitude1".toList, " abc".toList) (by with_unfolding_all decide)
     (by with_unfolding_all decide) (by with_unfolding_all decide)
     (by with_unfolding_all decide) (by with_unfolding_all decide)
     (by with_unfolding_all decide)⟩

/-- Counterexample to C10 as stated: in a file whose first line is
`frequency1: abc` — a recognized key whose value fails to scan — followed
by a complete set of valid lines, the load nevertheless returns 1 and
mutates the shared state, because the parse-failure check exempts the key
`frequency1`. -/
theorem c10_load_failure_atomic_counterexample :
    simpleScan.scanDouble "abc".toList = none ∧
    (handle_load_preset_from_file simpleScan (some presetLinesBadFreq) zeroPreset
      sampleData).1 = true ∧
    (handle_load_preset_from_file simpleScan (some presetLinesBadFreq) zeroPreset
      sampleData).2 ≠ sampleData :=
  ⟨by with_unfolding_all decide, by with_unfolding_all decide, by with_unfolding_all decide⟩
